import Mathlib

/-
Verification of the token and credential lifecycle of the multi-tenant auth service.

Shallow embedding of the core of the repository:
  - src/models/*.py            data model (User, Site, the four token kinds)
  - src/database.py            record store operations, modelled as pure
                               functions on an explicit `Store` value whose
                               lists mirror the SQL tables
  - src/services/password_service.py
  - src/services/token_service.py
  - src/services/auth_service.py
  - src/utils/role_middleware.py

Conventions of the embedding:
  - Unix timestamps are `Nat`; `int(time.time())` becomes an explicit `now`
    argument.
  - bcrypt itself is an external collaborator; its two primitives are passed
    in as function arguments (`bcrypt_hashpw`, `bcrypt_checkpw`).  The crash
    the Python wrappers exhibit when handed `None` (calling `.encode` on
    `None` raises `AttributeError`) is modelled explicitly.
  - `secrets.token_urlsafe` is external entropy; freshly minted token strings
    are passed in as arguments.
  - Python exceptions are modelled with `Except PyExc`; `ValueError` carries
    the exact message string the source raises.  Operations that mutate the
    store before raising return the mutated store next to the error, because
    each store write commits on its own in the source.
  - Python truthiness is modelled faithfully: `if not user_id:` on an
    `Optional[int]` is falsy for both `None` and `0`, while
    `if user_id is None:` (used in role_middleware) only tests `None`.
-/

namespace MultiTenantAuth

/-- Embeds src/models/user_role.py: roles are exactly `user` and `admin`. -/
inductive UserRole where
  | user
  | admin
deriving DecidableEq, Repr

/-- Embeds src/models/user.py.  `password_hash` is `Option String`: the
column is nullable (admin_scripts/migrate-nullable-password.py) and the
admin-register endpoint passes `password=None`. -/
structure User where
  id : Nat
  site_id : Nat
  email : String
  password_hash : Option String
  is_verified : Bool
  role : UserRole
  created_at : Nat
  updated_at : Nat
deriving DecidableEq, Repr

/-- Embeds src/models/site.py. -/
structure Site where
  id : Nat
  name : String
  domain : String
  frontend_url : String
  email_from : String
  email_from_name : String
  created_at : Nat
  updated_at : Nat
  verification_redirect_url : Option String := none
deriving DecidableEq, Repr

/-- Embeds Site.get_verification_redirect_url:
`return self.verification_redirect_url or self.frontend_url`.  Python `or`
falls through on any falsy value, so an empty string also falls back. -/
def Site.get_verification_redirect_url (s : Site) : String :=
  match s.verification_redirect_url with
  | none => s.frontend_url
  | some u => if u = "" then s.frontend_url else u

/-- Embeds src/models/auth_token.py (session credential). -/
structure AuthToken where
  token : String
  site_id : Nat
  user_id : Nat
  expires_at : Nat
  created_at : Nat
deriving DecidableEq, Repr

/-- Embeds src/models/email_verification_token.py. -/
structure EmailVerificationToken where
  token : String
  site_id : Nat
  user_id : Nat
  expires_at : Nat
  created_at : Nat
deriving DecidableEq, Repr

/-- Embeds src/models/password_reset_token.py; single use is tracked by the
`used` flag rather than deletion. -/
structure PasswordResetToken where
  token : String
  site_id : Nat
  user_id : Nat
  expires_at : Nat
  created_at : Nat
  used : Bool
deriving DecidableEq, Repr

/-- Embeds src/models/email_change_request.py. -/
structure EmailChangeRequest where
  token : String
  site_id : Nat
  user_id : Nat
  new_email : String
  expires_at : Nat
  created_at : Nat
deriving DecidableEq, Repr

/-- The durable record store of src/database.py: one list per SQL table,
plus the `users` serial sequence (`RETURNING id`). -/
structure Store where
  sites : List Site
  users : List User
  next_user_id : Nat
  auth_tokens : List AuthToken
  email_verification_tokens : List EmailVerificationToken
  password_reset_tokens : List PasswordResetToken
  email_change_requests : List EmailChangeRequest
deriving DecidableEq, Repr

/-- Embeds DatabaseManager.find_site_by_id (SELECT ... WHERE id = %s). -/
def find_site_by_id (s : Store) (site_id : Nat) : Option Site :=
  s.sites.find? (fun st => st.id == site_id)

/-- Embeds DatabaseManager.find_user_by_id (SELECT ... WHERE id = %s). -/
def find_user_by_id (s : Store) (user_id : Nat) : Option User :=
  s.users.find? (fun u => u.id == user_id)

/-- Embeds DatabaseManager.find_user_by_email
(SELECT ... WHERE site_id = %s AND email = %s). -/
def find_user_by_email (s : Store) (site_id : Nat) (email : String) : Option User :=
  s.users.find? (fun u => u.site_id == site_id && u.email == email)

/-- Embeds DatabaseManager.create_user: INSERT ... RETURNING id assigns the
next value of the serial sequence. -/
def create_user (s : Store) (user : User) : User × Store :=
  let user' := { user with id := s.next_user_id }
  (user', { s with users := s.users ++ [user'], next_user_id := s.next_user_id + 1 })

/-- Embeds DatabaseManager.update_user: the UPDATE statement overwrites
email, password_hash, is_verified, role and updated_at of the row whose id
matches; site_id and created_at are not part of the SET list. -/
def update_user (s : Store) (user : User) : Store :=
  { s with users := s.users.map (fun u =>
      if u.id == user.id then
        { u with email := user.email, password_hash := user.password_hash,
                 is_verified := user.is_verified, role := user.role,
                 updated_at := user.updated_at }
      else u) }

/-- Embeds DatabaseManager.create_auth_token (INSERT). -/
def db_create_auth_token (s : Store) (t : AuthToken) : Store :=
  { s with auth_tokens := s.auth_tokens ++ [t] }

/-- Embeds DatabaseManager.find_auth_token_by_token (SELECT ... WHERE token = %s). -/
def find_auth_token_by_token (s : Store) (token : String) : Option AuthToken :=
  s.auth_tokens.find? (fun t => t.token == token)

/-- Embeds DatabaseManager.delete_auth_token (DELETE ... WHERE token = %s). -/
def db_delete_auth_token (s : Store) (token : String) : Store :=
  { s with auth_tokens := s.auth_tokens.filter (fun t => !(t.token == token)) }

/-- Embeds DatabaseManager.delete_auth_tokens_by_user
(DELETE FROM auth_tokens WHERE user_id = %s). -/
def delete_auth_tokens_by_user (s : Store) (user_id : Nat) : Store :=
  { s with auth_tokens := s.auth_tokens.filter (fun t => !(t.user_id == user_id)) }

/-- Embeds DatabaseManager.create_email_verification_token (INSERT). -/
def db_create_email_verification_token (s : Store) (t : EmailVerificationToken) : Store :=
  { s with email_verification_tokens := s.email_verification_tokens ++ [t] }

/-- Embeds DatabaseManager.find_email_verification_token
(SELECT ... WHERE token = %s). -/
def find_email_verification_token (s : Store) (token : String) : Option EmailVerificationToken :=
  s.email_verification_tokens.find? (fun t => t.token == token)

/-- Embeds DatabaseManager.delete_email_verification_token
(DELETE ... WHERE token = %s). -/
def delete_email_verification_token (s : Store) (token : String) : Store :=
  { s with email_verification_tokens :=
      s.email_verification_tokens.filter (fun t => !(t.token == token)) }

/-- Embeds DatabaseManager.create_password_reset_token (INSERT). -/
def db_create_password_reset_token (s : Store) (t : PasswordResetToken) : Store :=
  { s with password_reset_tokens := s.password_reset_tokens ++ [t] }

/-- Embeds DatabaseManager.find_password_reset_token
(SELECT ... WHERE token = %s). -/
def find_password_reset_token (s : Store) (token : String) : Option PasswordResetToken :=
  s.password_reset_tokens.find? (fun t => t.token == token)

/-- Embeds DatabaseManager.mark_password_reset_token_used
(UPDATE password_reset_tokens SET used = TRUE WHERE token = %s). -/
def mark_password_reset_token_used (s : Store) (token : String) : Store :=
  { s with password_reset_tokens := s.password_reset_tokens.map (fun t =>
      if t.token == token then { t with used := true } else t) }

/-- Embeds DatabaseManager.create_email_change_request (INSERT). -/
def db_create_email_change_request (s : Store) (r : EmailChangeRequest) : Store :=
  { s with email_change_requests := s.email_change_requests ++ [r] }

/-- Embeds DatabaseManager.find_email_change_request
(SELECT ... WHERE token = %s). -/
def find_email_change_request (s : Store) (token : String) : Option EmailChangeRequest :=
  s.email_change_requests.find? (fun r => r.token == token)

/-- Embeds DatabaseManager.delete_email_change_request
(DELETE ... WHERE token = %s). -/
def delete_email_change_request (s : Store) (token : String) : Store :=
  { s with email_change_requests :=
      s.email_change_requests.filter (fun r => !(r.token == token)) }

/-- Python exceptions that the embedded services can raise.  `valueError`
carries the exact message string of the source `raise ValueError(...)`;
`attributeErrorNoneHasNoAttribute` is the uncaught `AttributeError` raised
when the Python code calls the encode method of `None`. -/
inductive PyExc where
  | valueError (msg : String)
  | attributeErrorNoneHasNoAttribute
deriving DecidableEq, Repr

instance {ε α : Type} [DecidableEq ε] [DecidableEq α] : DecidableEq (Except ε α) := fun a b =>
  match a, b with
  | .ok x, .ok y =>
    if h : x = y then .isTrue (by rw [h]) else .isFalse (by simp [h])
  | .error x, .error y =>
    if h : x = y then .isTrue (by rw [h]) else .isFalse (by simp [h])
  | .ok _, .error _ => .isFalse (by simp)
  | .error _, .ok _ => .isFalse (by simp)

/-- Embeds PasswordService.hash_password.  The body starts with
by encoding the password: handed `None` (as the admin-register endpoint
does), this raises AttributeError before bcrypt is reached.  bcrypt itself
is external and passed in as `bcrypt_hashpw`. -/
def hash_password (bcrypt_hashpw : String → String) (password : Option String) :
    Except PyExc String :=
  match password with
  | none => .error .attributeErrorNoneHasNoAttribute
  | some p => .ok (bcrypt_hashpw p)

/-- Embeds PasswordService.verify_password.  The body calls
by encoding the stored hash: a `None` hash raises AttributeError.
bcrypt.checkpw is external and passed in as `bcrypt_checkpw`. -/
def verify_password (bcrypt_checkpw : String → String → Bool) (password : String)
    (password_hash : Option String) : Except PyExc Bool :=
  match password_hash with
  | none => .error .attributeErrorNoneHasNoAttribute
  | some h => .ok (bcrypt_checkpw password h)

/-- Embeds TokenService.validate_auth_token: non-destructive session lookup
with lazy expiry check (`expires_at < current_time` rejects). -/
def validate_auth_token (s : Store) (token : String) (now : Nat) : Option Nat :=
  match find_auth_token_by_token s token with
  | none => none
  | some t => if t.expires_at < now then none else some t.user_id

/-- Embeds TokenService.invalidate_auth_token / DatabaseManager.delete_auth_token,
returning whether a row existed next to the updated store. -/
def invalidate_auth_token (s : Store) (token : String) : Bool × Store :=
  ((find_auth_token_by_token s token).isSome, db_delete_auth_token s token)

/-- Embeds TokenService.invalidate_user_tokens. -/
def invalidate_user_tokens (s : Store) (user_id : Nat) : Store :=
  delete_auth_tokens_by_user s user_id

/-- Embeds TokenService.check_email_verification_token: non-destructive
check, same lookup and expiry logic as the consuming variant but without
the delete. -/
def check_email_verification_token (s : Store) (token : String) (now : Nat) : Option Nat :=
  match find_email_verification_token s token with
  | none => none
  | some t => if t.expires_at < now then none else some t.user_id

/-- Embeds TokenService.validate_email_verification_token: on success the
row is deleted (one-time use) and the owning user_id returned. -/
def validate_email_verification_token (s : Store) (token : String) (now : Nat) :
    Option Nat × Store :=
  match find_email_verification_token s token with
  | none => (none, s)
  | some t =>
    if t.expires_at < now then (none, s)
    else (some t.user_id, delete_email_verification_token s token)

/-- Embeds TokenService.validate_password_reset_token: rejects when the row
is missing, already used, or expired (`reset_token.used or
reset_token.expires_at < current_time`); on success marks the row used and
returns the owning user_id. -/
def validate_password_reset_token (s : Store) (token : String) (now : Nat) :
    Option Nat × Store :=
  match find_password_reset_token s token with
  | none => (none, s)
  | some t =>
    if t.used = true ∨ t.expires_at < now then (none, s)
    else (some t.user_id, mark_password_reset_token_used s token)

/-- Embeds TokenService.validate_email_change_token: on success the row is
deleted (one-time use) and the full request returned. -/
def validate_email_change_token (s : Store) (token : String) (now : Nat) :
    Option EmailChangeRequest × Store :=
  match find_email_change_request s token with
  | none => (none, s)
  | some r =>
    if r.expires_at < now then (none, s)
    else (some r, delete_email_change_request s token)

/-- An outbound notification, recorded instead of actually delivered; the
source sends these best-effort inside try/except, so a send failure changes
nothing we model. -/
structure SentEmail where
  to_email : String
  token : String
deriving DecidableEq, Repr

/-- Embeds AuthService.register_user.  `password` is `Option String`
because api/admin_register.py calls this with `password=None`.  The source
hashes unconditionally (`password_service.hash_password(password)`) before
creating anything, so a `None` password raises AttributeError with the
store untouched.  `fresh_token` stands for the freshly generated
verification token string; `ttl` is config EMAIL_VERIFICATION_EXPIRATION. -/
def register_user (bcrypt_hashpw : String → String) (s : Store) (site_id : Nat)
    (email : String) (password : Option String) (role : UserRole)
    (now ttl : Nat) (fresh_token : String) :
    Except PyExc User × Store × List SentEmail :=
  match find_user_by_email s site_id email with
  | some _ => (.error (.valueError "Email already registered for this site"), s, [])
  | none =>
    match hash_password bcrypt_hashpw password with
    | .error e => (.error e, s, [])
    | .ok h =>
      let created := create_user s
        { id := 0, site_id := site_id, email := email, password_hash := some h,
          is_verified := false, role := role, created_at := now, updated_at := now }
      let user := created.1
      let s1 := created.2
      let vt : EmailVerificationToken :=
        { token := fresh_token, site_id := site_id, user_id := user.id,
          expires_at := now + ttl, created_at := now }
      let s2 := db_create_email_verification_token s1 vt
      match find_site_by_id s2 site_id with
      | none => (.ok user, s2, [])
      | some _ => (.ok user, s2, [{ to_email := user.email, token := fresh_token }])

/-- Embeds AuthService.login.  The password is verified before the
is_verified check; a user row whose password_hash is NULL makes
verify_password raise AttributeError (never `ValueError("Invalid
credentials")`).  `fresh_token` is the minted session token string and
`ttl` is config AUTH_TOKEN_EXPIRATION. -/
def login (bcrypt_checkpw : String → String → Bool) (s : Store) (site_id : Nat)
    (email password : String) (now ttl : Nat) (fresh_token : String) :
    Except PyExc AuthToken × Store :=
  match find_user_by_email s site_id email with
  | none => (.error (.valueError "Invalid credentials"), s)
  | some user =>
    match verify_password bcrypt_checkpw password user.password_hash with
    | .error e => (.error e, s)
    | .ok ok =>
      if ok = false then (.error (.valueError "Invalid credentials"), s)
      else if user.is_verified = false then (.error (.valueError "Email not verified"), s)
      else
        let t : AuthToken :=
          { token := fresh_token, site_id := site_id, user_id := user.id,
            expires_at := now + ttl, created_at := now }
        (.ok t, db_create_auth_token s t)

/-- Embeds AuthService.verify_email (the version in
src/services/auth_service.py: it takes only the token, has no password
parameter and returns just the user).  The consuming token validation runs
first, so its delete persists even when the user lookup then fails.
`if not user_id:` is Python truthiness: both `None` and `0` take the
invalid-token branch. -/
def verify_email (s : Store) (token : String) (now : Nat) :
    Except PyExc User × Store :=
  let res := validate_email_verification_token s token now
  let s1 := res.2
  match res.1 with
  | none => (.error (.valueError "Invalid or expired verification token"), s1)
  | some user_id =>
    if user_id = 0 then (.error (.valueError "Invalid or expired verification token"), s1)
    else
      match find_user_by_id s1 user_id with
      | none => (.error (.valueError "User not found"), s1)
      | some user =>
        let user' := { user with is_verified := true, updated_at := now }
        (.ok user', update_user s1 user')

/-- Embeds AuthService.change_password: verify the old password, store the
new hash, then delete every auth token of the user. -/
def change_password (bcrypt_checkpw : String → String → Bool)
    (bcrypt_hashpw : String → String) (s : Store) (user_id : Nat)
    (old_password new_password : String) (now : Nat) :
    Except PyExc User × Store :=
  match find_user_by_id s user_id with
  | none => (.error (.valueError "User not found"), s)
  | some user =>
    match verify_password bcrypt_checkpw old_password user.password_hash with
    | .error e => (.error e, s)
    | .ok ok =>
      if ok = false then (.error (.valueError "Incorrect password"), s)
      else
        let user' := { user with password_hash := some (bcrypt_hashpw new_password),
                                 updated_at := now }
        let s1 := update_user s user'
        let s2 := invalidate_user_tokens s1 user_id
        (.ok user', s2)

/-- Embeds AuthService.request_password_reset: when no user matches, return
`None` immediately (the route still answers 200) with no token minted and
no email sent; otherwise mint a PasswordResetToken and best-effort notify.
`ttl` is config PASSWORD_RESET_EXPIRATION. -/
def request_password_reset (s : Store) (site_id : Nat) (email : String)
    (now ttl : Nat) (fresh_token : String) :
    Option String × Store × List SentEmail :=
  match find_user_by_email s site_id email with
  | none => (none, s, [])
  | some user =>
    let rt : PasswordResetToken :=
      { token := fresh_token, site_id := site_id, user_id := user.id,
        expires_at := now + ttl, created_at := now, used := false }
    let s1 := db_create_password_reset_token s rt
    match find_site_by_id s1 site_id with
    | none => (some fresh_token, s1, [])
    | some _ => (some fresh_token, s1, [{ to_email := user.email, token := fresh_token }])

/-- Embeds AuthService.reset_password.  The consuming token validation runs
first, so its used-flag write persists even when the user lookup then
fails.  `if not user_id:` is Python truthiness: both `None` and `0` take
the invalid-token branch. -/
def reset_password (bcrypt_hashpw : String → String) (s : Store)
    (token new_password : String) (now : Nat) :
    Except PyExc User × Store :=
  let res := validate_password_reset_token s token now
  let s1 := res.2
  match res.1 with
  | none => (.error (.valueError "Invalid or expired reset token"), s1)
  | some user_id =>
    if user_id = 0 then (.error (.valueError "Invalid or expired reset token"), s1)
    else
      match find_user_by_id s1 user_id with
      | none => (.error (.valueError "User not found"), s1)
      | some user =>
        let user' := { user with password_hash := some (bcrypt_hashpw new_password),
                                 updated_at := now }
        let s2 := update_user s1 user'
        let s3 := invalidate_user_tokens s2 user_id
        (.ok user', s3)

/-- Embeds AuthService.confirm_email_change: consume the change token, then
overwrite the email of the user with the new_email of the request. -/
def confirm_email_change (s : Store) (token : String) (now : Nat) :
    Except PyExc User × Store :=
  let res := validate_email_change_token s token now
  let s1 := res.2
  match res.1 with
  | none => (.error (.valueError "Invalid or expired email change token"), s1)
  | some req =>
    match find_user_by_id s1 req.user_id with
    | none => (.error (.valueError "User not found"), s1)
    | some user =>
      let user' := { user with email := req.new_email, updated_at := now }
      (.ok user', update_user s1 user')

/-- Outcome of the require_role decorator of src/utils/role_middleware.py;
the first four answer 401, `insufficientPermissions` answers 403, and
`allowed` proceeds into the wrapped handler with the user bound. -/
inductive GuardResult where
  | missingAuthHeader
  | invalidAuthHeaderFormat
  | invalidOrExpiredToken
  | userNotFound
  | insufficientPermissions
  | allowed (user : User)
deriving DecidableEq, Repr

/-- Embeds Python `str.startswith` over code points (Python strings are
sequences of code points, matching `String.data`). -/
def strStartsWith (s pre : String) : Bool :=
  s.data.take pre.data.length == pre.data

/-- Embeds Python slicing `s[n:]` over code points. -/
def strDrop (s : String) (n : Nat) : String :=
  String.mk (s.data.drop n)

/-- Embeds require_role of src/utils/role_middleware.py: read the
Authorization header, require the Bearer scheme, validate the session
token (the source tests `user_id is None` here, an explicit None test and
not truthiness), load the user, then compare `user.role != required_role`. -/
def require_role (required_role : UserRole) (auth_header : Option String)
    (s : Store) (now : Nat) : GuardResult :=
  match auth_header with
  | none => .missingAuthHeader
  | some h =>
    if strStartsWith h "Bearer " = false then .invalidAuthHeaderFormat
    else
      let token := strDrop h 7
      match validate_auth_token s token now with
      | none => .invalidOrExpiredToken
      | some user_id =>
        match find_user_by_id s user_id with
        | none => .userNotFound
        | some user =>
          if user.role ≠ required_role then .insufficientPermissions
          else .allowed user

/-! Helper lemmas about the store operations. -/

/-- Deleting every row matching a predicate makes a lookup by that
predicate come back empty. -/
theorem find?_filter_not_eq_none {α : Type} (p : α → Bool) (l : List α) :
    (l.filter (fun x => !(p x))).find? p = none := by
  rw [List.find?_eq_none]
  intro x hx
  have h := List.mem_filter.mp hx
  simpa using h.2

theorem find_email_verification_token_delete (s : Store) (tok : String) :
    find_email_verification_token (delete_email_verification_token s tok) tok = none :=
  find?_filter_not_eq_none _ _

theorem find_email_change_request_delete (s : Store) (tok : String) :
    find_email_change_request (delete_email_change_request s tok) tok = none :=
  find?_filter_not_eq_none _ _

/-- Looking a token up after mark_password_reset_token_used finds the same
row with `used` forced to true. -/
theorem find_password_reset_token_mark (s : Store) (tok : String) :
    find_password_reset_token (mark_password_reset_token_used s tok) tok
      = (find_password_reset_token s tok).map (fun t => { t with used := true }) := by
  show (s.password_reset_tokens.map _).find? _
      = (s.password_reset_tokens.find? _).map _
  induction s.password_reset_tokens with
  | nil => rfl
  | cons hd tl ih =>
    cases h : (hd.token == tok) with
    | true => simp [List.find?, h]
    | false => simpa [List.find?, h] using ih

theorem update_user_auth_tokens (s : Store) (u : User) :
    (update_user s u).auth_tokens = s.auth_tokens := rfl

theorem mark_password_reset_token_used_users (s : Store) (tok : String) :
    (mark_password_reset_token_used s tok).users = s.users := rfl

theorem delete_email_verification_token_users (s : Store) (tok : String) :
    (delete_email_verification_token s tok).users = s.users := rfl

/-- After delete_auth_tokens_by_user, any token string that (in the old
store) belonged only to that user no longer validates. -/
theorem validate_auth_token_after_delete_by_user (s : Store) (uid : Nat)
    (tok : String) (now : Nat)
    (huniq : ∀ t ∈ s.auth_tokens, t.token = tok → t.user_id = uid) :
    validate_auth_token (delete_auth_tokens_by_user s uid) tok now = none := by
  have hfind : find_auth_token_by_token (delete_auth_tokens_by_user s uid) tok = none := by
    show ((s.auth_tokens.filter _).find? _) = none
    rw [List.find?_eq_none]
    intro t ht
    have h := List.mem_filter.mp ht
    simp only [Bool.not_eq_eq_eq_not, Bool.not_true, beq_eq_false_iff_ne] at h
    simp only [beq_iff_eq]
    intro heq
    exact h.2 (huniq t h.1 heq)
  simp [validate_auth_token, hfind]

/-! Theorems settling the claims. -/

/-- C4: for every token kind, a token whose expires_at has passed `now` is
handled by the check and consume operations exactly like a token string
with no row at all: both return `none`, and the consuming operations leave
the store untouched in both cases (an absent token satisfies the expiry
hypothesis vacuously, so each conjunct covers the absent case and the
expired case with the same conclusion). -/
theorem expired_token_behaves_as_absent (s : Store) (tok : String) (now : Nat) :
    (find_auth_token_by_token s tok = none → validate_auth_token s tok now = none)
  ∧ (∀ r, find_auth_token_by_token s tok = some r → r.expires_at < now →
      validate_auth_token s tok now = none)
  ∧ (find_email_verification_token s tok = none →
      check_email_verification_token s tok now = none)
  ∧ (∀ r, find_email_verification_token s tok = some r → r.expires_at < now →
      check_email_verification_token s tok now = none)
  ∧ (find_email_verification_token s tok = none →
      validate_email_verification_token s tok now = (none, s))
  ∧ (∀ r, find_email_verification_token s tok = some r → r.expires_at < now →
      validate_email_verification_token s tok now = (none, s))
  ∧ (find_password_reset_token s tok = none →
      validate_password_reset_token s tok now = (none, s))
  ∧ (∀ r, find_password_reset_token s tok = some r → r.expires_at < now →
      validate_password_reset_token s tok now = (none, s))
  ∧ (find_email_change_request s tok = none →
      validate_email_change_token s tok now = (none, s))
  ∧ (∀ r, find_email_change_request s tok = some r → r.expires_at < now →
      validate_email_change_token s tok now = (none, s)) := by
  refine ⟨?_, ?_, ?_, ?_, ?_, ?_, ?_, ?_, ?_, ?_⟩
  · intro h; simp [validate_auth_token, h]
  · intro r h hexp; simp [validate_auth_token, h, hexp]
  · intro h; simp [check_email_verification_token, h]
  · intro r h hexp; simp [check_email_verification_token, h, hexp]
  · intro h; simp [validate_email_verification_token, h]
  · intro r h hexp; simp [validate_email_verification_token, h, hexp]
  · intro h; simp [validate_password_reset_token, h]
  · intro r h hexp; simp [validate_password_reset_token, h, hexp]
  · intro h; simp [validate_email_change_token, h]
  · intro r h hexp; simp [validate_email_change_token, h, hexp]

/-- A store holding one expired token of each kind, for the C4 witness. -/
def c4Store : Store :=
  { sites := [], users := [], next_user_id := 1,
    auth_tokens := [{ token := "A", site_id := 1, user_id := 7,
                      expires_at := 5, created_at := 0 }],
    email_verification_tokens := [{ token := "V", site_id := 1, user_id := 7,
                                    expires_at := 5, created_at := 0 }],
    password_reset_tokens := [{ token := "P", site_id := 1, user_id := 7,
                                expires_at := 5, created_at := 0, used := false }],
    email_change_requests := [{ token := "C", site_id := 1, user_id := 7,
                                new_email := "n@x.com", expires_at := 5,
                                created_at := 0 }] }

/-- Witness for C4 at a concrete store: every conjunct applied, both to the
expired tokens it holds and to the absent token string "Z". -/
theorem expired_token_behaves_as_absent_witness :
    validate_auth_token c4Store "Z" 10 = none
  ∧ validate_auth_token c4Store "A" 10 = none
  ∧ check_email_verification_token c4Store "Z" 10 = none
  ∧ check_email_verification_token c4Store "V" 10 = none
  ∧ validate_email_verification_token c4Store "Z" 10 = (none, c4Store)
  ∧ validate_email_verification_token c4Store "V" 10 = (none, c4Store)
  ∧ validate_password_reset_token c4Store "Z" 10 = (none, c4Store)
  ∧ validate_password_reset_token c4Store "P" 10 = (none, c4Store)
  ∧ validate_email_change_token c4Store "Z" 10 = (none, c4Store)
  ∧ validate_email_change_token c4Store "C" 10 = (none, c4Store) :=
  ⟨(expired_token_behaves_as_absent c4Store "Z" 10).1 (by decide),
   (expired_token_behaves_as_absent c4Store "A" 10).2.1
     { token := "A", site_id := 1, user_id := 7, expires_at := 5, created_at := 0 }
     (by decide) (by decide),
   (expired_token_behaves_as_absent c4Store "Z" 10).2.2.1 (by decide),
   (expired_token_behaves_as_absent c4Store "V" 10).2.2.2.1
     { token := "V", site_id := 1, user_id := 7, expires_at := 5, created_at := 0 }
     (by decide) (by decide),
   (expired_token_behaves_as_absent c4Store "Z" 10).2.2.2.2.1 (by decide),
   (expired_token_behaves_as_absent c4Store "V" 10).2.2.2.2.2.1
     { token := "V", site_id := 1, user_id := 7, expires_at := 5, created_at := 0 }
     (by decide) (by decide),
   (expired_token_behaves_as_absent c4Store "Z" 10).2.2.2.2.2.2.1 (by decide),
   (expired_token_behaves_as_absent c4Store "P" 10).2.2.2.2.2.2.2.1
     { token := "P", site_id := 1, user_id := 7, expires_at := 5, created_at := 0,
       used := false }
     (by decide) (by decide),
   (expired_token_behaves_as_absent c4Store "Z" 10).2.2.2.2.2.2.2.2.1 (by decide),
   (expired_token_behaves_as_absent c4Store "C" 10).2.2.2.2.2.2.2.2.2
     { token := "C", site_id := 1, user_id := 7, new_email := "n@x.com",
       expires_at := 5, created_at := 0 }
     (by decide) (by decide)⟩

/-- C1: a successful consumption of an email-verification or email-change
token deletes the stored row, so the row is gone, a second consume of the
same token string returns absent, and the enclosing operation
(verify_email / confirm_email_change) then raises its
invalid-or-expired-token ValueError. -/
theorem verification_and_change_tokens_are_one_time (s : Store) (tok : String) (now : Nat) :
    (∀ uid, (validate_email_verification_token s tok now).1 = some uid →
        find_email_verification_token (validate_email_verification_token s tok now).2 tok = none
      ∧ (∀ now2, validate_email_verification_token
            (validate_email_verification_token s tok now).2 tok now2
          = (none, (validate_email_verification_token s tok now).2))
      ∧ (∀ now2, (verify_email (validate_email_verification_token s tok now).2 tok now2).1
          = .error (.valueError "Invalid or expired verification token")))
  ∧ (∀ req, (validate_email_change_token s tok now).1 = some req →
        find_email_change_request (validate_email_change_token s tok now).2 tok = none
      ∧ (∀ now2, validate_email_change_token
            (validate_email_change_token s tok now).2 tok now2
          = (none, (validate_email_change_token s tok now).2))
      ∧ (∀ now2, (confirm_email_change (validate_email_change_token s tok now).2 tok now2).1
          = .error (.valueError "Invalid or expired email change token"))) := by
  constructor
  · intro uid h
    cases hf : find_email_verification_token s tok with
    | none => simp [validate_email_verification_token, hf] at h
    | some t =>
      by_cases hexp : t.expires_at < now
      · simp [validate_email_verification_token, hf, hexp] at h
      · have hsnd : (validate_email_verification_token s tok now).2
            = delete_email_verification_token s tok := by
          simp [validate_email_verification_token, hf, hexp]
        rw [hsnd]
        have hgone := find_email_verification_token_delete s tok
        refine ⟨hgone, ?_, ?_⟩
        · intro now2; simp [validate_email_verification_token, hgone]
        · intro now2; simp [verify_email, validate_email_verification_token, hgone]
  · intro req h
    cases hf : find_email_change_request s tok with
    | none => simp [validate_email_change_token, hf] at h
    | some r =>
      by_cases hexp : r.expires_at < now
      · simp [validate_email_change_token, hf, hexp] at h
      · have hsnd : (validate_email_change_token s tok now).2
            = delete_email_change_request s tok := by
          simp [validate_email_change_token, hf, hexp]
        rw [hsnd]
        have hgone := find_email_change_request_delete s tok
        refine ⟨hgone, ?_, ?_⟩
        · intro now2; simp [validate_email_change_token, hgone]
        · intro now2; simp [confirm_email_change, validate_email_change_token, hgone]

/-- A store holding one live token of each consumable kind, for witnesses. -/
def liveStore : Store :=
  { sites := [], users := [], next_user_id := 1,
    auth_tokens := [],
    email_verification_tokens := [{ token := "V", site_id := 1, user_id := 7,
                                    expires_at := 100, created_at := 0 }],
    password_reset_tokens := [{ token := "P", site_id := 1, user_id := 7,
                                expires_at := 100, created_at := 0, used := false }],
    email_change_requests := [{ token := "C", site_id := 1, user_id := 7,
                                new_email := "n@x.com", expires_at := 100,
                                created_at := 0 }] }

/-- Witness for C1: in `liveStore` both consumes succeed at time 10, and the
second consume of each token finds nothing. -/
theorem verification_and_change_tokens_are_one_time_witness :
    find_email_verification_token (validate_email_verification_token liveStore "V" 10).2 "V" = none
  ∧ (verify_email (validate_email_verification_token liveStore "V" 10).2 "V" 11).1
      = .error (.valueError "Invalid or expired verification token")
  ∧ find_email_change_request (validate_email_change_token liveStore "C" 10).2 "C" = none
  ∧ (confirm_email_change (validate_email_change_token liveStore "C" 10).2 "C" 11).1
      = .error (.valueError "Invalid or expired email change token") := by
  have h1 := (verification_and_change_tokens_are_one_time liveStore "V" 10).1 7 (by decide)
  have h2 := (verification_and_change_tokens_are_one_time liveStore "C" 10).2
    { token := "C", site_id := 1, user_id := 7, new_email := "n@x.com",
      expires_at := 100, created_at := 0 } (by decide)
  exact ⟨h1.1, h1.2.2 11, h2.1, h2.2.2 11⟩

/-- C2: a successful consumption of a password-reset token marks the row
used without deleting it: the row is still found afterwards (with
used = true), and a later consume of the same token string fails while
leaving the store as it is. -/
theorem reset_token_marked_used_not_deleted (s : Store) (tok : String) (now : Nat)
    (uid : Nat) (h : (validate_password_reset_token s tok now).1 = some uid) :
    (∃ r, find_password_reset_token (validate_password_reset_token s tok now).2 tok = some r
        ∧ r.used = true)
  ∧ ∀ now2, validate_password_reset_token
        (validate_password_reset_token s tok now).2 tok now2
      = (none, (validate_password_reset_token s tok now).2) := by
  cases hf : find_password_reset_token s tok with
  | none => simp [validate_password_reset_token, hf] at h
  | some t =>
    by_cases hcond : t.used = true ∨ t.expires_at < now
    · simp [validate_password_reset_token, hf, hcond] at h
    · have hsnd : (validate_password_reset_token s tok now).2
          = mark_password_reset_token_used s tok := by
        simp [validate_password_reset_token, hf, hcond]
      rw [hsnd]
      have hfind : find_password_reset_token (mark_password_reset_token_used s tok) tok
          = some { t with used := true } := by
        rw [find_password_reset_token_mark, hf]; rfl
      refine ⟨⟨{ t with used := true }, hfind, rfl⟩, ?_⟩
      intro now2
      simp [validate_password_reset_token, hfind]

/-- Witness for C2: consuming the live reset token of `liveStore` at time
10 succeeds; afterwards the row survives with used = true and a second
consume fails with the store unchanged. -/
theorem reset_token_marked_used_not_deleted_witness :
    (∃ r, find_password_reset_token (validate_password_reset_token liveStore "P" 10).2 "P" = some r
        ∧ r.used = true)
  ∧ validate_password_reset_token (validate_password_reset_token liveStore "P" 10).2 "P" 11
      = (none, (validate_password_reset_token liveStore "P" 10).2) := by
  have h := reset_token_marked_used_not_deleted liveStore "P" 10 7 (by decide)
  exact ⟨h.1, h.2 11⟩

/-- Inversion of a successful password-reset-token consumption. -/
theorem validate_password_reset_token_success (s : Store) (tok : String) (now : Nat)
    (uid : Nat) (h : (validate_password_reset_token s tok now).1 = some uid) :
    ∃ t, find_password_reset_token s tok = some t ∧ t.user_id = uid
      ∧ t.used = false ∧ ¬ (t.expires_at < now)
      ∧ (validate_password_reset_token s tok now).2
          = mark_password_reset_token_used s tok := by
  cases hf : find_password_reset_token s tok with
  | none => simp [validate_password_reset_token, hf] at h
  | some t =>
    by_cases hcond : t.used = true ∨ t.expires_at < now
    · simp [validate_password_reset_token, hf, hcond] at h
    · have huid : t.user_id = uid := by
        simpa [validate_password_reset_token, hf, hcond] using h
      exact ⟨t, rfl, huid, by simpa using (not_or.mp hcond).1,
             (not_or.mp hcond).2, by simp [validate_password_reset_token, hf, hcond]⟩

/-- Inversion of a successful email-verification-token consumption. -/
theorem validate_email_verification_token_success (s : Store) (tok : String) (now : Nat)
    (uid : Nat) (h : (validate_email_verification_token s tok now).1 = some uid) :
    ∃ t, find_email_verification_token s tok = some t ∧ t.user_id = uid
      ∧ ¬ (t.expires_at < now)
      ∧ (validate_email_verification_token s tok now).2
          = delete_email_verification_token s tok := by
  cases hf : find_email_verification_token s tok with
  | none => simp [validate_email_verification_token, hf] at h
  | some t =>
    by_cases hexp : t.expires_at < now
    · simp [validate_email_verification_token, hf, hexp] at h
    · have huid : t.user_id = uid := by
        simpa [validate_email_verification_token, hf, hexp] using h
      exact ⟨t, rfl, huid, hexp, by simp [validate_email_verification_token, hf, hexp]⟩

theorem mark_password_reset_token_used_auth_tokens (s : Store) (tok : String) :
    (mark_password_reset_token_used s tok).auth_tokens = s.auth_tokens := rfl

theorem mem_delete_auth_tokens_by_user (s : Store) (uid : Nat) (t : AuthToken)
    (ht : t ∈ (delete_auth_tokens_by_user s uid).auth_tokens) : t.user_id ≠ uid := by
  have h := List.mem_filter.mp ht
  simpa using h.2

/-- A found user carries the id it was looked up by. -/
theorem find_user_by_id_id (s : Store) (uid : Nat) (u : User)
    (h : find_user_by_id s uid = some u) : u.id = uid := by
  have := List.find?_some h
  simpa using this

/-- C3: a successful change_password deletes every auth token of that user
(none with that user_id survives in the resulting store), so a session
token previously issued to the user no longer validates — provided the
token string did not also belong to a row of another user, which the
unique constraint on auth_tokens.token rules out.  The same holds for a
successful reset_password, where the affected user is the returned one. -/
theorem credential_change_revokes_sessions (ck : String → String → Bool)
    (hp : String → String) (s : Store) (now : Nat) :
    (∀ user_id old_pw new_pw u' s',
        change_password ck hp s user_id old_pw new_pw now = (.ok u', s') →
        (∀ t ∈ s'.auth_tokens, t.user_id ≠ user_id)
      ∧ (∀ t ∈ s.auth_tokens, t.user_id = user_id →
          (∀ t2 ∈ s.auth_tokens, t2.token = t.token → t2.user_id = user_id) →
          ∀ now2, validate_auth_token s' t.token now2 = none))
  ∧ (∀ tok new_pw u' s',
        reset_password hp s tok new_pw now = (.ok u', s') →
        (∀ t ∈ s'.auth_tokens, t.user_id ≠ u'.id)
      ∧ (∀ t ∈ s.auth_tokens, t.user_id = u'.id →
          (∀ t2 ∈ s.auth_tokens, t2.token = t.token → t2.user_id = u'.id) →
          ∀ now2, validate_auth_token s' t.token now2 = none)) := by
  constructor
  · intro user_id old_pw new_pw u' s' h
    cases hfu : find_user_by_id s user_id with
    | none => simp [change_password, hfu] at h
    | some user =>
      cases hv : verify_password ck old_pw user.password_hash with
      | error e => simp [change_password, hfu, hv] at h
      | ok b =>
        cases b with
        | false => simp [change_password, hfu, hv] at h
        | true =>
          simp only [change_password, hfu, hv, Bool.true_eq_false, if_false,
            Prod.mk.injEq, Except.ok.injEq] at h
          obtain ⟨hu, hs⟩ := h
          subst hs
          constructor
          · intro t ht
            exact mem_delete_auth_tokens_by_user _ _ _ ht
          · intro t _ _ huniq now2
            refine validate_auth_token_after_delete_by_user _ _ _ _ ?_
            rw [update_user_auth_tokens]
            exact huniq
  · intro tok new_pw u' s' h
    cases hv : (validate_password_reset_token s tok now).1 with
    | none => simp [reset_password, hv] at h
    | some uid =>
      by_cases h0 : uid = 0
      · simp [reset_password, hv, h0] at h
      · cases hfu : find_user_by_id (validate_password_reset_token s tok now).2 uid with
        | none => simp [reset_password, hv, h0, hfu] at h
        | some user =>
          simp only [reset_password, hv, h0, hfu, if_false, if_neg h0,
            Prod.mk.injEq, Except.ok.injEq] at h
          obtain ⟨hu, hs⟩ := h
          subst hs
          have huid : u'.id = uid := by
            rw [← hu]
            exact find_user_by_id_id _ _ user hfu
          constructor
          · intro t ht
            rw [huid]
            exact mem_delete_auth_tokens_by_user _ _ _ ht
          · intro t _ _ huniq now2
            rw [huid] at huniq
            refine validate_auth_token_after_delete_by_user _ _ _ _ ?_
            rw [update_user_auth_tokens]
            obtain ⟨tr, _, _, _, _, hsnd⟩ :=
              validate_password_reset_token_success s tok now uid hv
            rw [hsnd, mark_password_reset_token_used_auth_tokens]
            exact huniq

/-- Demo bcrypt stand-ins used only to instantiate witnesses. -/
def demoHash (p : String) : String := "hashed:" ++ p

/-- Demo bcrypt check matching `demoHash`. -/
def demoCheck (p h : String) : Bool := h == demoHash p

/-- The user of the C3 witness store. -/
def c3User : User :=
  { id := 1, site_id := 1, email := "a@x.com", password_hash := some "hashed:old",
    is_verified := true, role := .user, created_at := 0, updated_at := 0 }

/-- C3 witness store: one verified user with one live session and one live
reset token. -/
def c3Store : Store :=
  { sites := [], users := [c3User], next_user_id := 2,
    auth_tokens := [{ token := "A", site_id := 1, user_id := 1,
                      expires_at := 100, created_at := 0 }],
    email_verification_tokens := [],
    password_reset_tokens := [{ token := "P", site_id := 1, user_id := 1,
                                expires_at := 100, created_at := 0, used := false }],
    email_change_requests := [] }

/-- Witness for C3: after a successful change_password and after a
successful reset_password in `c3Store`, the previously issued session
token "A" no longer validates. -/
theorem credential_change_revokes_sessions_witness :
    validate_auth_token (change_password demoCheck demoHash c3Store 1 "old" "new" 50).2 "A" 60 = none
  ∧ validate_auth_token (reset_password demoHash c3Store "P" "new" 50).2 "A" 60 = none := by
  constructor
  · have h := (credential_change_revokes_sessions demoCheck demoHash c3Store 50).1
      1 "old" "new"
      { c3User with password_hash := some "hashed:new", updated_at := 50 }
      (change_password demoCheck demoHash c3Store 1 "old" "new" 50).2
      (by decide)
    exact h.2 { token := "A", site_id := 1, user_id := 1, expires_at := 100, created_at := 0 }
      (by decide) (by decide) (by decide) 60
  · have h := (credential_change_revokes_sessions demoCheck demoHash c3Store 50).2
      "P" "new"
      { c3User with password_hash := some "hashed:new", updated_at := 50 }
      (reset_password demoHash c3Store "P" "new" 50).2
      (by decide)
    exact h.2 { token := "A", site_id := 1, user_id := 1, expires_at := 100, created_at := 0 }
      (by decide) (by decide) (by decide) 60

/-- A verified user row whose password_hash is NULL, as the
admin-provisioning flow intends to create. -/
def nullHashUser : User :=
  { id := 1, site_id := 1, email := "b@x.com", password_hash := none,
    is_verified := true, role := .user, created_at := 0, updated_at := 0 }

/-- Store for the C5 evidence: just the null-hash user. -/
def c5Store : Store :=
  { sites := [], users := [nullHashUser], next_user_id := 2, auth_tokens := [],
    email_verification_tokens := [], password_reset_tokens := [],
    email_change_requests := [] }

/-- C5 (code bug evidence): login against a user whose password_hash is
NULL does not fail with the InvalidCredentials ValueError — it crashes
with AttributeError inside verify_password (calling encode on None),
before any credential comparison.  The first conjunct evaluates the
embedded code at the failing input; the rest makes explicit that the
result is neither the InvalidCredentials error the claim requires nor any
ValueError at all. -/
theorem login_crashes_on_null_password_hash :
    login (fun _ _ => false) c5Store 1 "b@x.com" "anything" 10 100 "T"
      = (.error .attributeErrorNoneHasNoAttribute, c5Store)
  ∧ (login (fun _ _ => false) c5Store 1 "b@x.com" "anything" 10 100 "T").1
      ≠ .error (.valueError "Invalid credentials") := by
  refine ⟨by decide, by decide⟩

/-- The empty store (with the serial sequence at 1). -/
def emptyStore : Store :=
  { sites := [], users := [], next_user_id := 1, auth_tokens := [],
    email_verification_tokens := [], password_reset_tokens := [],
    email_change_requests := [] }

/-- C6 (code bug evidence): register_user hashes unconditionally, so the
admin-provisioned path (password None, as api/admin_register.py passes)
crashes with AttributeError inside hash_password and creates no user at
all, instead of persisting a user with a NULL password_hash.  The second
conjunct shows the provided-password path does hash and store. -/
theorem register_crashes_on_null_password :
    register_user demoHash emptyStore 1 "b@x.com" none .user 10 100 "T"
      = (.error .attributeErrorNoneHasNoAttribute, emptyStore, [])
  ∧ (register_user demoHash emptyStore 1 "a@x.com" (some "pw1") .user 10 100 "T").1
      = .ok { id := 1, site_id := 1, email := "a@x.com",
              password_hash := some (demoHash "pw1"), is_verified := false,
              role := .user, created_at := 10, updated_at := 10 }
  ∧ (register_user demoHash emptyStore 1 "a@x.com" (some "pw1") .user 10 100 "T").2.1.users
      = [{ id := 1, site_id := 1, email := "a@x.com",
           password_hash := some (demoHash "pw1"), is_verified := false,
           role := .user, created_at := 10, updated_at := 10 }] := by
  refine ⟨by decide, by decide, by decide⟩

/-- The unverified, passwordless user of the C7 evidence. -/
def c7User : User :=
  { id := 1, site_id := 1, email := "b@x.com", password_hash := none,
    is_verified := false, role := .user, created_at := 0, updated_at := 0 }

/-- Store for the C7 evidence: the passwordless user plus a live
verification token for them. -/
def c7Store : Store :=
  { sites := [{ id := 1, name := "S", domain := "s.x", frontend_url := "https://f.x",
                email_from := "e@x", email_from_name := "E", created_at := 0,
                updated_at := 0, verification_redirect_url := none }],
    users := [c7User], next_user_id := 2, auth_tokens := [],
    email_verification_tokens := [{ token := "T", site_id := 1, user_id := 1,
                                    expires_at := 100, created_at := 0 }],
    password_reset_tokens := [], email_change_requests := [] }

/-- The user verify_email actually returns in the C7 evidence. -/
def c7Result : User := { c7User with is_verified := true, updated_at := 50 }

/-- C7 (code bug evidence): the verify_email of
src/services/auth_service.py takes no password at all.  On a valid token
for a user whose password_hash is NULL it succeeds, marks the user
verified, leaves password_hash NULL, never raises the PasswordRequired
error, and returns only the user — no redirect URL (the Site fallback
get_verification_redirect_url exists but is never consulted).  The API
wrapper api/verify_email.py meanwhile calls this function with a password
keyword it does not accept, a TypeError on every request. -/
theorem verify_email_ignores_password_requirement :
    (verify_email c7Store "T" 50).1 = .ok c7Result
  ∧ c7Result.password_hash = none
  ∧ c7Result.is_verified = true
  ∧ (verify_email c7Store "T" 50).1 ≠ .error (.valueError "Password required")
  ∧ (c7Store.sites.map Site.get_verification_redirect_url) = ["https://f.x"] := by
  refine ⟨by decide, by decide, by decide, by decide, by decide⟩

/-- C8: when no user matches (site_id, email), request_password_reset
returns None (the route still answers success), mints no reset token,
sends no email, and leaves the store exactly as it was. -/
theorem reset_request_for_unknown_email_changes_nothing (s : Store)
    (site_id : Nat) (email : String) (now ttl : Nat) (fresh_token : String)
    (h : find_user_by_email s site_id email = none) :
    request_password_reset s site_id email now ttl fresh_token = (none, s, []) := by
  simp [request_password_reset, h]

/-- Witness for C8 at a concrete store: the email is unknown, so nothing
changes. -/
theorem reset_request_for_unknown_email_changes_nothing_witness :
    request_password_reset c5Store 1 "nobody@x.com" 10 100 "T" = (none, c5Store, []) :=
  reset_request_for_unknown_email_changes_nothing c5Store 1 "nobody@x.com" 10 100 "T"
    (by decide)

theorem find_user_by_id_mark (s : Store) (tok : String) (uid : Nat) :
    find_user_by_id (mark_password_reset_token_used s tok) uid
      = find_user_by_id s uid := rfl

theorem find_user_by_id_delete_verification (s : Store) (tok : String) (uid : Nat) :
    find_user_by_id (delete_email_verification_token s tok) uid
      = find_user_by_id s uid := rfl

/-- A live reset token whose user_id is 0 and an otherwise empty store:
the referenced user does not exist. -/
def c9Token : PasswordResetToken :=
  { token := "T", site_id := 1, user_id := 0, expires_at := 100,
    created_at := 0, used := false }

/-- Store of the C9 counterexample. -/
def c9Store : Store :=
  { sites := [], users := [], next_user_id := 1, auth_tokens := [],
    email_verification_tokens := [], password_reset_tokens := [c9Token],
    email_change_requests := [] }

/-- C9 counterexample: the token is present, unexpired and unused, and its
user_id (0) matches no stored user, yet reset_password raises the
invalid-or-expired ValueError instead of the UserNotFound one, because
`if not user_id:` in Python also treats the integer 0 as falsy.  The
token is still consumed (marked used) by the failing call. -/
theorem reset_failure_error_counterexample :
    find_password_reset_token c9Store "T" = some c9Token
  ∧ c9Token.used = false
  ∧ ¬ (c9Token.expires_at < 50)
  ∧ find_user_by_id c9Store c9Token.user_id = none
  ∧ (reset_password demoHash c9Store "T" "npw" 50).1
      = .error (.valueError "Invalid or expired reset token")
  ∧ (reset_password demoHash c9Store "T" "npw" 50).1
      ≠ .error (.valueError "User not found")
  ∧ find_password_reset_token (reset_password demoHash c9Store "T" "npw" 50).2 "T"
      = some { c9Token with used := true } := by
  refine ⟨by decide, by decide, by decide, by decide, by decide, by decide, by decide⟩

/-- C9 (amended): when reset_password or verify_email is called with a
token that is present, unexpired (and unused) but references no stored
user, the token is consumed first — marked used, respectively deleted —
and only then does the call fail, so a failing call never leaves the
store unchanged.  The failure is the UserNotFound ValueError when the
referenced user_id is nonzero, and the invalid-or-expired ValueError when
it is 0 (Python truthiness in `if not user_id:`). -/
theorem failing_reset_or_verify_consumes_token_first (s : Store) (tok : String)
    (now : Nat) (hp : String → String) (new_pw : String) :
    (∀ r, find_password_reset_token s tok = some r → r.used = false →
        ¬ (r.expires_at < now) → find_user_by_id s r.user_id = none →
        (reset_password hp s tok new_pw now).1
          = .error (.valueError
              (if r.user_id = 0 then "Invalid or expired reset token" else "User not found"))
      ∧ find_password_reset_token (reset_password hp s tok new_pw now).2 tok
          = some { r with used := true })
  ∧ (∀ r, find_email_verification_token s tok = some r →
        ¬ (r.expires_at < now) → find_user_by_id s r.user_id = none →
        (verify_email s tok now).1
          = .error (.valueError
              (if r.user_id = 0 then "Invalid or expired verification token" else "User not found"))
      ∧ find_email_verification_token (verify_email s tok now).2 tok = none) := by
  constructor
  · intro r hf hused hexp hnouser
    have hv1 : (validate_password_reset_token s tok now).1 = some r.user_id := by
      simp [validate_password_reset_token, hf, hused, hexp]
    have hv2 : (validate_password_reset_token s tok now).2
        = mark_password_reset_token_used s tok := by
      simp [validate_password_reset_token, hf, hused, hexp]
    have hmark : find_password_reset_token (mark_password_reset_token_used s tok) tok
        = some { r with used := true } := by
      rw [find_password_reset_token_mark, hf]; rfl
    by_cases h0 : r.user_id = 0
    · have hres : reset_password hp s tok new_pw now
          = (.error (.valueError "Invalid or expired reset token"),
             mark_password_reset_token_used s tok) := by
        simp [reset_password, hv1, hv2, h0]
      rw [if_pos h0, hres]
      exact ⟨rfl, hmark⟩
    · have hfu : find_user_by_id (mark_password_reset_token_used s tok) r.user_id
          = none := by
        rw [find_user_by_id_mark]; exact hnouser
      have hres : reset_password hp s tok new_pw now
          = (.error (.valueError "User not found"),
             mark_password_reset_token_used s tok) := by
        simp [reset_password, hv1, hv2, h0, hfu]
      rw [if_neg h0, hres]
      exact ⟨rfl, hmark⟩
  · intro r hf hexp hnouser
    have hv1 : (validate_email_verification_token s tok now).1 = some r.user_id := by
      simp [validate_email_verification_token, hf, hexp]
    have hv2 : (validate_email_verification_token s tok now).2
        = delete_email_verification_token s tok := by
      simp [validate_email_verification_token, hf, hexp]
    have hgone := find_email_verification_token_delete s tok
    by_cases h0 : r.user_id = 0
    · have hres : verify_email s tok now
          = (.error (.valueError "Invalid or expired verification token"),
             delete_email_verification_token s tok) := by
        simp [verify_email, hv1, hv2, h0]
      rw [if_pos h0, hres]
      exact ⟨rfl, hgone⟩
    · have hfu : find_user_by_id (delete_email_verification_token s tok) r.user_id
          = none := by
        rw [find_user_by_id_delete_verification]; exact hnouser
      have hres : verify_email s tok now
          = (.error (.valueError "User not found"),
             delete_email_verification_token s tok) := by
        simp [verify_email, hv1, hv2, h0, hfu]
      rw [if_neg h0, hres]
      exact ⟨rfl, hgone⟩

/-- A reset token and a verification token both referencing the absent
user 42, for the C9 witness. -/
def c9bStore : Store :=
  { sites := [], users := [], next_user_id := 1, auth_tokens := [],
    email_verification_tokens := [{ token := "U", site_id := 1, user_id := 42,
                                    expires_at := 100, created_at := 0 }],
    password_reset_tokens := [{ token := "T", site_id := 1, user_id := 42,
                                expires_at := 100, created_at := 0, used := false }],
    email_change_requests := [] }

/-- Witness for the amended C9 at user_id 42 (no such user): both calls
fail with the UserNotFound ValueError and both consume the token. -/
theorem failing_reset_or_verify_consumes_token_first_witness :
    (reset_password demoHash c9bStore "T" "npw" 50).1
      = .error (.valueError "User not found")
  ∧ find_password_reset_token (reset_password demoHash c9bStore "T" "npw" 50).2 "T"
      = some { token := "T", site_id := 1, user_id := 42, expires_at := 100,
               created_at := 0, used := true }
  ∧ (verify_email c9bStore "U" 50).1 = .error (.valueError "User not found")
  ∧ find_email_verification_token (verify_email c9bStore "U" 50).2 "U" = none := by
  have h1 := (failing_reset_or_verify_consumes_token_first c9bStore "T" 50 demoHash "npw").1
    { token := "T", site_id := 1, user_id := 42, expires_at := 100,
      created_at := 0, used := false }
    (by decide) (by decide) (by decide) (by decide)
  have h2 := (failing_reset_or_verify_consumes_token_first c9bStore "U" 50 demoHash "npw").2
    { token := "U", site_id := 1, user_id := 42, expires_at := 100, created_at := 0 }
    (by decide) (by decide) (by decide)
  refine ⟨by simpa using h1.1, h1.2, by simpa using h2.1, h2.2⟩

/-- C10: the role guard grants access only on exact role equality.  First
conjunct: whenever the guard lets a request through, the authenticated
user holds exactly the required role.  Second conjunct: for any request
whose bearer token validates and whose user exists, the guard answers
allowed on exact equality and Forbidden (403) otherwise — in particular
an admin on an endpoint requiring role user is rejected; no hierarchy. -/
theorem role_guard_requires_exact_role :
    (∀ (required : UserRole) (auth_header : Option String) (s : Store) (now : Nat) (u : User),
        require_role required auth_header s now = .allowed u → u.role = required)
  ∧ (∀ (required : UserRole) (h : String) (s : Store) (now : Nat) (uid : Nat) (u : User),
        strStartsWith h "Bearer " = true →
        validate_auth_token s (strDrop h 7) now = some uid →
        find_user_by_id s uid = some u →
        require_role required (some h) s now
          = (if u.role = required then .allowed u else .insufficientPermissions)) := by
  constructor
  · intro required ah s now u hres
    cases ah with
    | none => simp [require_role] at hres
    | some h =>
      by_cases hb : strStartsWith h "Bearer " = false
      · simp [require_role, hb] at hres
      · cases hv : validate_auth_token s (strDrop h 7) now with
        | none => simp [require_role, hb, hv] at hres
        | some uid =>
          cases hfu : find_user_by_id s uid with
          | none => simp [require_role, hb, hv, hfu] at hres
          | some user =>
            by_cases hr : user.role ≠ required
            · simp [require_role, hb, hv, hfu, hr] at hres
            · have huser : user = u := by
                simpa [require_role, hb, hv, hfu, hr] using hres
              rw [← huser]
              exact not_not.mp hr
  · intro required h s now uid u hb hv hfu
    by_cases hr : u.role = required
    · simp [require_role, hb, hv, hfu, hr]
    · simp [require_role, hb, hv, hfu, hr]

/-- The admin user of the C10 witness. -/
def c10Admin : User :=
  { id := 1, site_id := 1, email := "adm@x.com", password_hash := some "H",
    is_verified := true, role := .admin, created_at := 0, updated_at := 0 }

/-- Store of the C10 witness: the admin and their live session token. -/
def c10Store : Store :=
  { sites := [], users := [c10Admin], next_user_id := 2,
    auth_tokens := [{ token := "tok", site_id := 1, user_id := 1,
                      expires_at := 100, created_at := 0 }],
    email_verification_tokens := [], password_reset_tokens := [],
    email_change_requests := [] }

/-- Witness for C10: the admin bearing a valid session is rejected with
403 on an endpoint requiring role user, and admitted where admin is
required. -/
theorem role_guard_requires_exact_role_witness :
    require_role .user (some "Bearer tok") c10Store 10 = .insufficientPermissions
  ∧ require_role .admin (some "Bearer tok") c10Store 10 = .allowed c10Admin := by
  constructor
  · have h := role_guard_requires_exact_role.2 .user "Bearer tok" c10Store 10 1 c10Admin
      (by decide) (by decide) (by decide)
    rw [h]; decide
  · have h := role_guard_requires_exact_role.2 .admin "Bearer tok" c10Store 10 1 c10Admin
      (by decide) (by decide) (by decide)
    rw [h]; decide

end MultiTenantAuth
